/-
  Verification of the MedDRA-autofill case-processing core:
  the validation engine (src/meddra_autofill/validation/rules.py),
  the retry-aware job queue (src/meddra_autofill/queue/job_queue.py),
  and the orchestrator (src/meddra_autofill/orchestration/orchestrator.py),
  over the data model of src/meddra_autofill/models.py.

  Python `datetime.date` values are modelled by a year/month/day triple
  ordered lexicographically, matching Python date comparison for calendar
  dates.  Python `Optional[str]` fields are `Option String`; Python
  truthiness of such a field (None and the empty string are falsy) is
  `optTruthy`.  The `raw_payload` dict is an association list with
  `dict.get` modelled by `lookupPayload`.  The validator error and warning
  message strings are modelled by inductive constructors carrying exactly
  the data interpolated into the corresponding message in rules.py, so
  that equality of messages is equality of rule firings.
-/
import Mathlib

/-- Calendar date, ordered lexicographically like Python `datetime.date`. -/
structure Date where
  year : Nat
  month : Nat
  day : Nat
deriving DecidableEq, Repr

/-- Strict lexicographic order on dates: Python `d1 < d2`. -/
def Date.blt (a b : Date) : Bool :=
  Nat.blt a.year b.year ||
    (a.year == b.year &&
      (Nat.blt a.month b.month ||
        (a.month == b.month && Nat.blt a.day b.day)))

/-- Truthiness of a Python `Optional[str]`: None and "" are falsy. -/
def optTruthy : Option String → Bool
  | none => false
  | some s => s != ""

/-- Python `str.lower()`, modelled as a per-character lowercase map
(structurally recursive, so concrete values reduce in the kernel). -/
def pyLower (s : String) : String := ⟨s.data.map Char.toLower⟩

/-- Python `str.upper()`, modelled as a per-character uppercase map. -/
def pyUpper (s : String) : String := ⟨s.data.map Char.toUpper⟩

/-- `payload.get(key)` on the `raw_payload` dict, modelled as an association list. -/
def lookupPayload (payload : List (String × String)) (key : String) : Option String :=
  (payload.find? (fun kv => kv.fst == key)).map (fun kv => kv.snd)

/-- `CaseRecord` from models.py: `case_id` is a plain string, the other typed
fields are optional, and `raw_payload` keeps the original column/value pairs. -/
structure CaseRecord where
  case_id : String
  reporter_type : Option String := none
  onset_date : Option Date := none
  reaction_reported_term : Option String := none
  meddra_level : Option String := none
  meddra_term_text : Option String := none
  meddra_code : Option String := none
  meddra_version : Option String := none
  seriousness : Option String := none
  suspect_drug : Option String := none
  dose_text : Option String := none
  outcome : Option String := none
  narrative : Option String := none
  raw_payload : List (String × String) := []
deriving DecidableEq, Repr

/-- Validation error messages of rules.py, one constructor per message
template, carrying the interpolated data. -/
inductive VError where
  | missingField (fieldName : String)
  | onsetTooEarly (d : Date)
  | onsetInFuture (d : Date) (today : Date)
  | onsetUnparseable (raw : String)
  | badMeddraLevel (lvl : String)
  | meddraPairMismatch
  | narrativeTooLong
deriving DecidableEq, Repr

/-- Validation warning messages of rules.py. -/
inductive VWarning where
  | seriousnessUnrecognized (value : String)
deriving DecidableEq, Repr

/-- `ValidationResult` from models.py. -/
structure ValidationResult where
  record : CaseRecord
  is_valid : Bool
  errors : List VError := []
  warnings : List VWarning := []
deriving DecidableEq, Repr

/-- `CaseValidator.REQUIRED_FIELDS`. -/
def REQUIRED_FIELDS : List String :=
  ["case_id", "reaction_reported_term", "meddra_level", "onset_date"]

/-- `CaseValidator.ALLOWED_MEDDRA_LEVELS` (a set in the source; listed here). -/
def ALLOWED_MEDDRA_LEVELS : List String := ["LLT", "PT"]

/-- `CaseValidator.MIN_ONSET_DATE = date(1970, 1, 1)`. -/
def MIN_ONSET_DATE : Date := ⟨1970, 1, 1⟩

/-- `getattr(record, field_name)` truthiness for the four required fields:
`case_id` is a plain string (falsy iff empty), `onset_date` is a date or
None (falsy iff None), the rest are optional strings. -/
def CaseRecord.fieldTruthy (r : CaseRecord) (f : String) : Bool :=
  if f == "case_id" then r.case_id != ""
  else if f == "reaction_reported_term" then optTruthy r.reaction_reported_term
  else if f == "meddra_level" then optTruthy r.meddra_level
  else if f == "onset_date" then r.onset_date.isSome
  else false

/-- `CaseValidator` holds the reference date (`self.today`). -/
structure CaseValidator where
  today : Date
deriving DecidableEq, Repr

/-- The required-field errors block of `CaseValidator.validate`:
one missing-field error per falsy required field, in field order. -/
def requiredErrorsOf (r : CaseRecord) : List VError :=
  (REQUIRED_FIELDS.filter (fun f => !(r.fieldTruthy f))).map VError.missingField

/-- The onset-date block of `CaseValidator.validate`: bound errors when a
date was parsed, else an unparseable error when the raw payload carried a
non-empty onset-date string. -/
def onsetErrorsOf (v : CaseValidator) (r : CaseRecord) : List VError :=
  match r.onset_date with
  | some d =>
      (if Date.blt d MIN_ONSET_DATE then [VError.onsetTooEarly d] else []) ++
        (if Date.blt v.today d then [VError.onsetInFuture d v.today] else [])
  | none =>
      if optTruthy (lookupPayload r.raw_payload "onset_date") then
        [VError.onsetUnparseable ((lookupPayload r.raw_payload "onset_date").getD "")]
      else []

/-- The MedDRA-level block of `CaseValidator.validate`. -/
def levelErrorsOf (r : CaseRecord) : List VError :=
  match r.meddra_level with
  | some lvl =>
      if lvl != "" && !(ALLOWED_MEDDRA_LEVELS.contains (pyUpper lvl)) then
        [VError.badMeddraLevel lvl]
      else []
  | none => []

/-- The term-text/code pairing block of `CaseValidator.validate`. -/
def pairErrorsOf (r : CaseRecord) : List VError :=
  if (optTruthy r.meddra_term_text) != (optTruthy r.meddra_code) then
    [VError.meddraPairMismatch]
  else []

/-- The narrative-length block of `CaseValidator.validate`. -/
def narrativeErrorsOf (r : CaseRecord) : List VError :=
  match r.narrative with
  | some n => if n != "" && decide (n.length > 4000) then [VError.narrativeTooLong] else []
  | none => []

/-- The seriousness block of `CaseValidator.validate` (warnings only). -/
def warningsOf (r : CaseRecord) : List VWarning :=
  let seriousnessValue := r.seriousness.getD ""
  if seriousnessValue != "" &&
      !(pyLower seriousnessValue == "serious" || pyLower seriousnessValue == "non-serious") then
    [VWarning.seriousnessUnrecognized seriousnessValue]
  else []

/-- `CaseValidator.validate` from rules.py, rule by rule in source order:
required fields, onset-date bounds / unparseable onset date, MedDRA level,
term-text/code pairing, narrative length, seriousness warning.  Errors
accumulate across the rule blocks; `is_valid` is `not errors`. -/
def CaseValidator.validate (v : CaseValidator) (r : CaseRecord) : ValidationResult :=
  let errors :=
    requiredErrorsOf r ++ onsetErrorsOf v r ++ levelErrorsOf r ++
      pairErrorsOf r ++ narrativeErrorsOf r
  { record := r, is_valid := errors.isEmpty, errors := errors, warnings := warningsOf r }

/-- `CaseValidator.validate_many`. -/
def CaseValidator.validate_many (v : CaseValidator) (rs : List CaseRecord) : List ValidationResult :=
  rs.map v.validate

/-- `JobItem` from job_queue.py: a record plus retry bookkeeping. -/
structure JobItem where
  record : CaseRecord
  attempts : Nat := 0
  max_attempts : Nat := 3
  error_messages : List String := []
deriving DecidableEq, Repr

/-- `JobItem.is_exhausted := attempts >= max_attempts`. -/
def JobItem.is_exhausted (j : JobItem) : Bool := j.max_attempts ≤ j.attempts

/-- `JobQueue` state: the FIFO deque (head first) and the dead-letter list. -/
structure JobQueue where
  queue : List JobItem := []
  dead_letter : List JobItem := []
deriving DecidableEq, Repr

/-- `JobQueue.enqueue`: append a fresh JobItem (attempts = 0) at the tail. -/
def JobQueue.enqueue (q : JobQueue) (r : CaseRecord) : JobQueue :=
  { q with queue := q.queue ++ [{ record := r }] }

/-- `JobQueue.dequeue`: pop the head, or None when empty.  The Python method
mutates the queue; here it returns the popped item with the remaining state. -/
def JobQueue.dequeue (q : JobQueue) : Option JobItem × JobQueue :=
  match q.queue with
  | [] => (none, q)
  | j :: rest => (some j, { q with queue := rest })

/-- The job value after `requeue`'s in-place mutation:
`job.attempts += 1; job.error_messages.append(error_message)`. -/
def JobItem.requeued (j : JobItem) (msg : String) : JobItem :=
  { j with attempts := j.attempts + 1, error_messages := j.error_messages ++ [msg] }

/-- `JobQueue.requeue`: bump the job, then dead-letter it if exhausted,
else append it at the queue tail. -/
def JobQueue.requeue (q : JobQueue) (job : JobItem) (msg : String) : JobQueue :=
  let j := job.requeued msg
  if j.is_exhausted then { q with dead_letter := q.dead_letter ++ [j] }
  else { q with queue := q.queue ++ [j] }

/-- `ProcessingReport` from orchestrator.py. -/
structure ProcessingReport where
  success_count : Nat := 0
  retry_count : Nat := 0
  failed_jobs : List JobItem := []
  validation_errors : List ValidationResult := []
deriving DecidableEq, Repr

/-- `ProcessingReport.total_attempted`. -/
def ProcessingReport.total_attempted (rep : ProcessingReport) : Nat :=
  rep.success_count + rep.retry_count + rep.failed_jobs.length

/-- Worker outcome of one `process_job` call: return True, return False,
or raise an exception. -/
inductive Outcome where
  | success
  | retryRequest
  | fault
deriving DecidableEq, Repr

/-- A worker capability: given its internal state and a job, it produces an
outcome and a new state.  This models any `BaseUIWorker.process_job`,
including stateful ones; raising is the `fault` outcome. -/
def Worker (σ : Type) : Type := σ → JobItem → Outcome × σ

/-- `Orchestrator.enqueue_valid`, threading the queue and report explicitly:
valid results are enqueued, invalid ones are appended to
`report.validation_errors`.  No worker is involved in this phase. -/
def enqueue_valid (results : List ValidationResult) (q : JobQueue)
    (rep : ProcessingReport) : ProcessingReport × JobQueue :=
  match results with
  | [] => (rep, q)
  | res :: rest =>
      if res.is_valid then enqueue_valid rest (q.enqueue res.record) rep
      else
        enqueue_valid rest q
          { rep with validation_errors := rep.validation_errors ++ [res] }

/-- Termination measure for the drain loop: each queued job contributes its
remaining retry budget plus one. -/
def queueMeasure (q : JobQueue) : Nat :=
  (q.queue.map (fun j => j.max_attempts - j.attempts + 1)).sum

/-- The drain loop of `Orchestrator.run`: dequeue until empty; on success
bump `success_count`, on a worker fault append the job to
`report.failed_jobs` and continue, on a retryable failure bump
`retry_count` and requeue with message "worker requested retry". -/
def drain {σ : Type} (w : Worker σ) (s : σ) (q : JobQueue)
    (rep : ProcessingReport) : ProcessingReport × JobQueue × σ :=
  match hq : q.queue with
  | [] => (rep, q, s)
  | job :: rest =>
      let q1 : JobQueue := { q with queue := rest }
      match w s job with
      | (Outcome.fault, s1) =>
          drain w s1 q1 { rep with failed_jobs := rep.failed_jobs ++ [job] }
      | (Outcome.success, s1) =>
          drain w s1 q1 { rep with success_count := rep.success_count + 1 }
      | (Outcome.retryRequest, s1) =>
          drain w s1 (q1.requeue job "worker requested retry")
            { rep with retry_count := rep.retry_count + 1 }
termination_by queueMeasure q
decreasing_by
  · simp only [queueMeasure, hq, List.map_cons, List.sum_cons]
    omega
  · simp only [queueMeasure, hq, List.map_cons, List.sum_cons]
    omega
  · simp only [queueMeasure, JobQueue.requeue, JobItem.requeued, JobItem.is_exhausted, hq]
    split
    · simp only [List.map_cons, List.sum_cons]
      omega
    · rename_i hne
      simp only [decide_eq_true_eq] at hne
      simp only [List.map_append, List.sum_append, List.map_cons, List.sum_cons,
        List.map_nil, List.sum_nil]
      omega

/-- `Orchestrator.run` with a freshly constructed queue (the constructor
default `queue or JobQueue()`): enqueue the valid results, drain the queue,
then extend `failed_jobs` with the queue's dead-letter snapshot.  Returns
the report together with the final queue and worker state. -/
def Orchestrator.run {σ : Type} (w : Worker σ) (s : σ)
    (results : List ValidationResult) : ProcessingReport × JobQueue × σ :=
  let init := enqueue_valid results {} {}
  let res := drain w s init.2 init.1
  ({ res.1 with failed_jobs := res.1.failed_jobs ++ res.2.1.dead_letter },
    res.2.1, res.2.2)

/-- Recognizer for the too-early onset-date error. -/
def VError.isTooEarly : VError → Bool
  | VError.onsetTooEarly _ => true
  | _ => false

/-- Recognizer for the future onset-date error. -/
def VError.isInFuture : VError → Bool
  | VError.onsetInFuture _ _ => true
  | _ => false

/-- Recognizer for the unparseable onset-date error. -/
def VError.isUnparseable : VError → Bool
  | VError.onsetUnparseable _ => true
  | _ => false

/-- C5: `is_valid` is exactly emptiness of `errors`; the `errors` list does
not depend on the seriousness field (so an unrecognized seriousness value
alone never invalidates a record); and a non-empty seriousness value that
is, case-insensitively, neither "serious" nor "non-serious" produces
exactly one warning. -/
theorem validate_validity_ignores_seriousness (v : CaseValidator) (r : CaseRecord) :
    ((v.validate r).is_valid = (v.validate r).errors.isEmpty)
    ∧ (∀ s, (v.validate { r with seriousness := s }).errors = (v.validate r).errors)
    ∧ (∀ sv, r.seriousness = some sv → sv ≠ "" →
        pyLower sv ≠ "serious" → pyLower sv ≠ "non-serious" →
        (v.validate r).warnings = [VWarning.seriousnessUnrecognized sv]) := by
  refine ⟨rfl, fun s => rfl, fun sv hsv h1 h2 h3 => ?_⟩
  simp [CaseValidator.validate, warningsOf, hsv, h1, h2, h3]

/-- A concrete reference-date validator used by witnesses. -/
def val24 : CaseValidator := ⟨⟨2024, 1, 1⟩⟩

/-- A concrete record with an unrecognized seriousness value. -/
def unsureRecord : CaseRecord :=
  { case_id := "CASE-1", seriousness := some "unsure" }

/-- Witness for C5 at a concrete record with seriousness "unsure". -/
theorem validate_validity_ignores_seriousness_witness :
    (val24.validate unsureRecord).warnings = [VWarning.seriousnessUnrecognized "unsure"] :=
  (validate_validity_ignores_seriousness val24 unsureRecord).2.2 "unsure" rfl
    (by decide) (by decide) (by decide)

/-- Any-flag over the required-field block is false when the flag ignores
missing-field errors. -/
lemma requiredErrorsOf_any_false (r : CaseRecord) (p : VError → Bool)
    (h : ∀ f, p (VError.missingField f) = false) :
    (requiredErrorsOf r).any p = false := by
  simp only [requiredErrorsOf, List.any_eq_false]
  intro x hx
  obtain ⟨f, hf, rfl⟩ := List.mem_map.mp hx
  simp [h]

/-- Any-flag over the MedDRA-level block is false when the flag ignores
bad-level errors. -/
lemma levelErrorsOf_any_false (r : CaseRecord) (p : VError → Bool)
    (h : ∀ s, p (VError.badMeddraLevel s) = false) :
    (levelErrorsOf r).any p = false := by
  cases hml : r.meddra_level <;> simp [levelErrorsOf, hml, h]
  all_goals
    intro x h1 h2 hx
    subst hx
    exact h _

/-- Any-flag over the pairing block is false when the flag ignores the
pairing error. -/
lemma pairErrorsOf_any_false (r : CaseRecord) (p : VError → Bool)
    (h : p VError.meddraPairMismatch = false) :
    (pairErrorsOf r).any p = false := by
  unfold pairErrorsOf
  split
  · simp only [List.any_cons, List.any_nil, h, Bool.or_self]
  · rfl

/-- Any-flag over the narrative block is false when the flag ignores the
narrative error. -/
lemma narrativeErrorsOf_any_false (r : CaseRecord) (p : VError → Bool)
    (h : p VError.narrativeTooLong = false) :
    (narrativeErrorsOf r).any p = false := by
  cases hnar : r.narrative <;> simp [narrativeErrorsOf, hnar, h]
  all_goals
    intro x h1 h2 hx
    subst hx
    exact h

/-- A flag that fires only on onset-date errors sees exactly the onset
block of the validator output. -/
lemma validate_any_eq_onset (v : CaseValidator) (r : CaseRecord) (p : VError → Bool)
    (h1 : ∀ f, p (VError.missingField f) = false)
    (h2 : ∀ s, p (VError.badMeddraLevel s) = false)
    (h3 : p VError.meddraPairMismatch = false)
    (h4 : p VError.narrativeTooLong = false) :
    (v.validate r).errors.any p = (onsetErrorsOf v r).any p := by
  simp [CaseValidator.validate, List.any_append,
    requiredErrorsOf_any_false r p h1, levelErrorsOf_any_false r p h2,
    pairErrorsOf_any_false r p h3, narrativeErrorsOf_any_false r p h4]

/-- C6: with a parsed onset date, the errors list carries a too-early error
exactly when the date is before 1970-01-01 and a future error exactly when
it is after the reference date (so neither when the date lies in the
inclusive range); with no parsed onset date but a non-empty raw
onset-date string, the errors list carries an unparseable-date error. -/
theorem validate_onset_bounds (v : CaseValidator) (r : CaseRecord) :
    (∀ d, r.onset_date = some d →
      (v.validate r).errors.any VError.isTooEarly = Date.blt d MIN_ONSET_DATE
        ∧ (v.validate r).errors.any VError.isInFuture = Date.blt v.today d)
    ∧ (r.onset_date = none →
        optTruthy (lookupPayload r.raw_payload "onset_date") = true →
        (v.validate r).errors.any VError.isUnparseable = true) := by
  constructor
  · intro d hd
    rw [validate_any_eq_onset v r VError.isTooEarly (fun _ => rfl) (fun _ => rfl) rfl rfl,
      validate_any_eq_onset v r VError.isInFuture (fun _ => rfl) (fun _ => rfl) rfl rfl]
    unfold onsetErrorsOf
    rw [hd]
    constructor <;>
      · cases hearly : Date.blt d MIN_ONSET_DATE <;>
          cases hfut : Date.blt v.today d <;>
            simp [hearly, hfut, VError.isTooEarly, VError.isInFuture]
  · intro hd hraw
    rw [validate_any_eq_onset v r VError.isUnparseable (fun _ => rfl) (fun _ => rfl) rfl rfl]
    unfold onsetErrorsOf
    rw [hd]
    simp [hraw, VError.isUnparseable]

/-- C10: a record whose raw payload supplies a non-empty onset-date string
that failed to parse (typed onset date absent) receives both the
missing-required-field error for onset_date and the unparseable-date
error: the two cases are not disjoint. -/
theorem validate_unparseable_also_missing (v : CaseValidator) (r : CaseRecord)
    (raw : String) (hd : r.onset_date = none)
    (hraw : lookupPayload r.raw_payload "onset_date" = some raw) (hne : raw ≠ "") :
    VError.missingField "onset_date" ∈ (v.validate r).errors
      ∧ VError.onsetUnparseable raw ∈ (v.validate r).errors := by
  constructor
  · have hmem : VError.missingField "onset_date" ∈ requiredErrorsOf r := by
      simp [requiredErrorsOf, REQUIRED_FIELDS, List.mem_filter,
        CaseRecord.fieldTruthy, hd]
    simp [CaseValidator.validate]
    exact Or.inl (by simpa [requiredErrorsOf] using hmem)
  · have hmem : VError.onsetUnparseable raw ∈ onsetErrorsOf v r := by
      simp [onsetErrorsOf, hd, hraw, optTruthy, hne]
    simp [CaseValidator.validate]
    exact Or.inr (Or.inl (by simpa [onsetErrorsOf] using hmem))

/-- A concrete record with an onset date before 1970. -/
def earlyRecord : CaseRecord := { case_id := "CASE-2", onset_date := some ⟨1960, 1, 1⟩ }

/-- A concrete record whose raw payload carries an onset-date string that
did not parse (typed onset date absent). -/
def rawBadRecord : CaseRecord :=
  { case_id := "CASE-3", raw_payload := [("onset_date", "13/45/2020")] }

/-- Witness for C6 at concrete records: a pre-1970 date flags too-early,
and an unparsed raw onset-date string flags unparseable. -/
theorem validate_onset_bounds_witness :
    (val24.validate earlyRecord).errors.any VError.isTooEarly = true
      ∧ (val24.validate rawBadRecord).errors.any VError.isUnparseable = true := by
  constructor
  · exact (((validate_onset_bounds val24 earlyRecord).1 ⟨1960, 1, 1⟩ rfl).1).trans (by decide)
  · exact (validate_onset_bounds val24 rawBadRecord).2 rfl (by decide)

/-- Witness for C10 at a concrete record. -/
theorem validate_unparseable_also_missing_witness :
    VError.missingField "onset_date" ∈ (val24.validate rawBadRecord).errors
      ∧ VError.onsetUnparseable "13/45/2020" ∈ (val24.validate rawBadRecord).errors :=
  validate_unparseable_also_missing val24 rawBadRecord "13/45/2020" rfl rfl (by decide)

/-- The onset block never emits a missing-field error. -/
lemma onsetErrorsOf_count_missing (v : CaseValidator) (r : CaseRecord) (f : String) :
    (onsetErrorsOf v r).count (VError.missingField f) = 0 := by
  rw [List.count_eq_zero]
  unfold onsetErrorsOf
  cases r.onset_date <;> (repeat' split) <;> simp

/-- The MedDRA-level block never emits a missing-field error. -/
lemma levelErrorsOf_count_missing (r : CaseRecord) (f : String) :
    (levelErrorsOf r).count (VError.missingField f) = 0 := by
  rw [List.count_eq_zero]
  unfold levelErrorsOf
  cases r.meddra_level <;> (repeat' split) <;> simp

/-- The pairing block never emits a missing-field error. -/
lemma pairErrorsOf_count_missing (r : CaseRecord) (f : String) :
    (pairErrorsOf r).count (VError.missingField f) = 0 := by
  rw [List.count_eq_zero]
  unfold pairErrorsOf
  (repeat' split) <;> simp

/-- The narrative block never emits a missing-field error. -/
lemma narrativeErrorsOf_count_missing (r : CaseRecord) (f : String) :
    (narrativeErrorsOf r).count (VError.missingField f) = 0 := by
  rw [List.count_eq_zero]
  unfold narrativeErrorsOf
  cases r.narrative <;> (repeat' split) <;> simp

/-- C7: rules do not short-circuit.  Each required field contributes its
missing-field error exactly once when falsy (and never when truthy), and a
record with falsy onset_date and falsy reaction_reported_term carries both
of those two distinct errors at once. -/
theorem validate_error_accumulation (v : CaseValidator) (r : CaseRecord) :
    (∀ f, f ∈ REQUIRED_FIELDS →
      (v.validate r).errors.count (VError.missingField f)
        = if r.fieldTruthy f then 0 else 1)
    ∧ (r.fieldTruthy "onset_date" = false →
        r.fieldTruthy "reaction_reported_term" = false →
        VError.missingField "onset_date" ∈ (v.validate r).errors
          ∧ VError.missingField "reaction_reported_term" ∈ (v.validate r).errors
          ∧ VError.missingField "onset_date"
              ≠ VError.missingField "reaction_reported_term") := by
  constructor
  · intro f hf
    have hseg : (v.validate r).errors.count (VError.missingField f)
        = (requiredErrorsOf r).count (VError.missingField f) := by
      simp [CaseValidator.validate, List.count_append,
        onsetErrorsOf_count_missing, levelErrorsOf_count_missing,
        pairErrorsOf_count_missing, narrativeErrorsOf_count_missing]
    rw [hseg]
    simp only [REQUIRED_FIELDS, List.mem_cons, List.not_mem_nil, or_false] at hf
    rcases hf with rfl | rfl | rfl | rfl <;>
      cases h1 : r.fieldTruthy "case_id" <;>
        cases h2 : r.fieldTruthy "reaction_reported_term" <;>
          cases h3 : r.fieldTruthy "meddra_level" <;>
            cases h4 : r.fieldTruthy "onset_date" <;>
              simp [requiredErrorsOf, REQUIRED_FIELDS, List.filter, h1, h2, h3, h4]
  · intro h1 h2
    have hm1 : VError.missingField "onset_date" ∈ requiredErrorsOf r := by
      simp [requiredErrorsOf, List.mem_filter, REQUIRED_FIELDS, h1]
    have hm2 : VError.missingField "reaction_reported_term" ∈ requiredErrorsOf r := by
      simp [requiredErrorsOf, List.mem_filter, REQUIRED_FIELDS, h2]
    refine ⟨?_, ?_, by simp⟩
    · simp [CaseValidator.validate]
      exact Or.inl (by simpa [requiredErrorsOf] using hm1)
    · simp [CaseValidator.validate]
      exact Or.inl (by simpa [requiredErrorsOf] using hm2)

/-- Witness for C7 at a concrete record missing both onset_date and
reaction_reported_term. -/
theorem validate_error_accumulation_witness :
    VError.missingField "onset_date" ∈ (val24.validate rawBadRecord).errors
      ∧ VError.missingField "reaction_reported_term" ∈ (val24.validate rawBadRecord).errors
      ∧ (val24.validate rawBadRecord).errors.count (VError.missingField "onset_date") = 1 :=
  ⟨((validate_error_accumulation val24 rawBadRecord).2 (by decide) (by decide)).1,
    ((validate_error_accumulation val24 rawBadRecord).2 (by decide) (by decide)).2.1,
    ((validate_error_accumulation val24 rawBadRecord).1 "onset_date" (by decide)).trans
      (by decide)⟩

/-- Full effect of the enqueue phase on queue and report, threaded from any
starting state: valid records are appended as fresh jobs in order, invalid
results are appended to `validation_errors`, and nothing else changes. -/
lemma enqueue_valid_spec (results : List ValidationResult) (q : JobQueue)
    (rep : ProcessingReport) :
    (enqueue_valid results q rep).2.queue
        = q.queue ++ (results.filter (fun res => res.is_valid)).map
            (fun res => ({ record := res.record } : JobItem))
      ∧ (enqueue_valid results q rep).2.dead_letter = q.dead_letter
      ∧ (enqueue_valid results q rep).1.validation_errors
          = rep.validation_errors ++ results.filter (fun res => !res.is_valid)
      ∧ (enqueue_valid results q rep).1.success_count = rep.success_count
      ∧ (enqueue_valid results q rep).1.retry_count = rep.retry_count
      ∧ (enqueue_valid results q rep).1.failed_jobs = rep.failed_jobs := by
  induction results generalizing q rep with
  | nil => simp [enqueue_valid]
  | cons res rest ih =>
      by_cases hv : res.is_valid
      · simp [enqueue_valid, hv, ih, JobQueue.enqueue]
      · simp [enqueue_valid, hv, ih]

/-- C8: the enqueue phase enqueues exactly the valid results (as fresh
jobs, in order) and records exactly the invalid results in
`validation_errors`; consequently the queue holds only records of valid
results.  `enqueue_valid` takes no worker at all. -/
theorem enqueue_valid_exact (results : List ValidationResult) :
    (enqueue_valid results {} {}).2.queue
        = (results.filter (fun res => res.is_valid)).map
            (fun res => ({ record := res.record } : JobItem))
      ∧ (enqueue_valid results {} {}).1.validation_errors
          = results.filter (fun res => !res.is_valid)
      ∧ (enqueue_valid results {} {}).2.queue.map JobItem.record
          = (results.filter (fun res => res.is_valid)).map ValidationResult.record := by
  have h := enqueue_valid_spec results {} {}
  refine ⟨by simpa using h.1, by simpa using h.2.2.1, ?_⟩
  have h1 : (enqueue_valid results {} {}).2.queue
      = (results.filter (fun res => res.is_valid)).map
          (fun res => ({ record := res.record } : JobItem)) := by simpa using h.1
  rw [h1, List.map_map]
  rfl

/-- Unfolding equation for `drain` on an empty queue. -/
lemma drain_nil {σ : Type} (w : Worker σ) (s : σ) (q : JobQueue)
    (rep : ProcessingReport) (hq : q.queue = []) :
    drain w s q rep = (rep, q, s) := by
  rw [drain]
  split
  · rfl
  · rename_i job rest heq
    rw [hq] at heq
    simp at heq

/-- Unfolding equation for `drain` on a non-empty queue: one dispatch step. -/
lemma drain_cons {σ : Type} (w : Worker σ) (s : σ) (q : JobQueue)
    (rep : ProcessingReport) (job : JobItem) (rest : List JobItem)
    (hq : q.queue = job :: rest) :
    drain w s q rep =
      match w s job with
      | (Outcome.fault, s1) =>
          drain w s1 ⟨rest, q.dead_letter⟩
            { rep with failed_jobs := rep.failed_jobs ++ [job] }
      | (Outcome.success, s1) =>
          drain w s1 ⟨rest, q.dead_letter⟩
            { rep with success_count := rep.success_count + 1 }
      | (Outcome.retryRequest, s1) =>
          drain w s1 (JobQueue.requeue ⟨rest, q.dead_letter⟩ job "worker requested retry")
            { rep with retry_count := rep.retry_count + 1 } := by
  rw [drain]
  split
  · rename_i heq
    rw [hq] at heq
    simp at heq
  · rename_i job2 rest2 heq
    rw [hq] at heq
    injection heq with h1 h2
    subst h1
    subst h2
    rfl

/-- Conservation through the drain loop: every job removed from the queue
lands in exactly one of success-count, direct failed_jobs, or the
dead-letter list; the queue always drains to empty; validation errors are
untouched. -/
lemma drain_conservation {σ : Type} (w : Worker σ) (s : σ) (q : JobQueue)
    (rep : ProcessingReport) :
    (drain w s q rep).1.success_count + (drain w s q rep).1.failed_jobs.length
        + (drain w s q rep).2.1.dead_letter.length
      = rep.success_count + rep.failed_jobs.length + q.dead_letter.length + q.queue.length
    ∧ (drain w s q rep).2.1.queue = []
    ∧ (drain w s q rep).1.validation_errors = rep.validation_errors := by
  induction s, q, rep using drain.induct w with
  | case1 s q rep hq =>
      rw [drain_nil w s q rep hq]
      simp [hq]
  | case2 s q rep job rest hq q1 s1 hw ih =>
      have hq1 : q1 = JobQueue.mk rest q.dead_letter := rfl
      rw [hq1] at ih
      rw [drain_cons w s q rep job rest hq]
      simp only [hw]
      refine ⟨?_, ih.2.1, ih.2.2⟩
      have h := ih.1
      simp [hq] at h ⊢
      omega
  | case3 s q rep job rest hq q1 s1 hw ih =>
      have hq1 : q1 = JobQueue.mk rest q.dead_letter := rfl
      rw [hq1] at ih
      rw [drain_cons w s q rep job rest hq]
      simp only [hw]
      refine ⟨?_, ih.2.1, ih.2.2⟩
      have h := ih.1
      simp [hq] at h ⊢
      omega
  | case4 s q rep job rest hq q1 s1 hw ih =>
      have hq1 : q1 = JobQueue.mk rest q.dead_letter := rfl
      rw [hq1] at ih
      rw [drain_cons w s q rep job rest hq]
      simp only [hw]
      refine ⟨?_, ih.2.1, ih.2.2⟩
      have h := ih.1
      have hreq : ((JobQueue.mk rest q.dead_letter).requeue job "worker requested retry").dead_letter.length
            + ((JobQueue.mk rest q.dead_letter).requeue job "worker requested retry").queue.length
          = q.dead_letter.length + rest.length + 1 := by
        simp only [JobQueue.requeue]
        split <;> simp <;> omega
      simp [hq] at h hreq ⊢
      omega

/-- C2: after `run`, every enqueued job is accounted for exactly once:
`success_count + len(failed_jobs)` equals the number of valid results
(the jobs ever enqueued), the queue itself ends empty, and the
validation-error list is exactly the invalid results, for every worker
and every input batch. -/
theorem run_partitions_jobs {σ : Type} (w : Worker σ) (s : σ)
    (results : List ValidationResult) :
    (Orchestrator.run w s results).1.success_count
        + (Orchestrator.run w s results).1.failed_jobs.length
      = (results.filter (fun res => res.is_valid)).length
    ∧ (Orchestrator.run w s results).2.1.queue = []
    ∧ (Orchestrator.run w s results).1.validation_errors
        = results.filter (fun res => !res.is_valid) := by
  have he := enqueue_valid_spec results {} {}
  have hd := drain_conservation w s (enqueue_valid results {} {}).2
    (enqueue_valid results {} {}).1
  simp only [Orchestrator.run]
  refine ⟨?_, hd.2.1, ?_⟩
  · have h1 := hd.1
    rw [he.1, he.2.1, he.2.2.2.1, he.2.2.2.2.2] at h1
    simp at h1
    simp [List.length_append]
    omega
  · rw [hd.2.2, he.2.2.1]
    simp

/-- C9: `attempts` starts at 0 on enqueue, is incremented by exactly 1 by
each requeue (so it never decreases), and dequeue hands back the head job
unmodified; no other queue operation touches the field. -/
theorem attempts_monotone (q : JobQueue) (r : CaseRecord) (j : JobItem) (msg : String) :
    ((q.enqueue r).queue
        = q.queue ++ [{ record := r, attempts := 0, max_attempts := 3, error_messages := [] }])
    ∧ ((j.requeued msg).attempts = j.attempts + 1 ∧ j.attempts < (j.requeued msg).attempts)
    ∧ (((q.requeue j msg).queue = q.queue ++ [j.requeued msg]
          ∧ (q.requeue j msg).dead_letter = q.dead_letter)
        ∨ ((q.requeue j msg).queue = q.queue
          ∧ (q.requeue j msg).dead_letter = q.dead_letter ++ [j.requeued msg]))
    ∧ ((q.dequeue = (none, q) ∧ q.queue = [])
        ∨ ∃ job rest, q.queue = job :: rest
            ∧ q.dequeue = (some job, { q with queue := rest })) := by
  refine ⟨rfl, ⟨rfl, by simp [JobItem.requeued]⟩, ?_, ?_⟩
  · simp only [JobQueue.requeue]
    split
    · right
      exact ⟨rfl, rfl⟩
    · left
      exact ⟨rfl, rfl⟩
  · cases hq : q.queue with
    | nil => exact Or.inl ⟨by simp [JobQueue.dequeue, hq], rfl⟩
    | cons job rest => exact Or.inr ⟨job, rest, rfl, by simp [JobQueue.dequeue, hq]⟩

/-- A worker that always requests a retry, with a state counting its
dispatches. -/
def countingRetry : Worker Nat := fun n _ => (Outcome.retryRequest, n + 1)

/-- Full evaluation of `run` on one valid record under an always-retry
worker: three dispatches, three requeue events (the last one
dead-letters), retry_count 3 and three accumulated retry messages. -/
lemma always_retry_run_eq (r : CaseRecord) :
    Orchestrator.run countingRetry 0 [⟨r, true, [], []⟩]
      = (⟨0, 3, [⟨r, 3, 3, ["worker requested retry", "worker requested retry",
            "worker requested retry"]⟩], []⟩,
         ⟨[], [⟨r, 3, 3, ["worker requested retry", "worker requested retry",
            "worker requested retry"]⟩]⟩,
         3) := by
  have h1 : drain countingRetry 0 (⟨[⟨r, 0, 3, []⟩], []⟩ : JobQueue) ({} : ProcessingReport)
      = drain countingRetry 1 (⟨[⟨r, 1, 3, ["worker requested retry"]⟩], []⟩ : JobQueue)
          (⟨0, 1, [], []⟩ : ProcessingReport) := by
    rw [drain_cons countingRetry 0 ⟨[⟨r, 0, 3, []⟩], []⟩ {} ⟨r, 0, 3, []⟩ [] rfl]
    simp [countingRetry, JobQueue.requeue, JobItem.requeued, JobItem.is_exhausted]
  have h2 : drain countingRetry 1
        (⟨[⟨r, 1, 3, ["worker requested retry"]⟩], []⟩ : JobQueue)
        (⟨0, 1, [], []⟩ : ProcessingReport)
      = drain countingRetry 2
          (⟨[⟨r, 2, 3, ["worker requested retry", "worker requested retry"]⟩], []⟩ : JobQueue)
          (⟨0, 2, [], []⟩ : ProcessingReport) := by
    rw [drain_cons countingRetry 1 ⟨[⟨r, 1, 3, ["worker requested retry"]⟩], []⟩
      ⟨0, 1, [], []⟩ ⟨r, 1, 3, ["worker requested retry"]⟩ [] rfl]
    simp [countingRetry, JobQueue.requeue, JobItem.requeued, JobItem.is_exhausted]
  have h3 : drain countingRetry 2
        (⟨[⟨r, 2, 3, ["worker requested retry", "worker requested retry"]⟩], []⟩ : JobQueue)
        (⟨0, 2, [], []⟩ : ProcessingReport)
      = drain countingRetry 3
          (⟨[], [⟨r, 3, 3, ["worker requested retry", "worker requested retry",
              "worker requested retry"]⟩]⟩ : JobQueue)
          (⟨0, 3, [], []⟩ : ProcessingReport) := by
    rw [drain_cons countingRetry 2
      ⟨[⟨r, 2, 3, ["worker requested retry", "worker requested retry"]⟩], []⟩
      ⟨0, 2, [], []⟩ ⟨r, 2, 3, ["worker requested retry", "worker requested retry"]⟩ [] rfl]
    simp [countingRetry, JobQueue.requeue, JobItem.requeued, JobItem.is_exhausted]
  have h4 : drain countingRetry 3
        (⟨[], [⟨r, 3, 3, ["worker requested retry", "worker requested retry",
            "worker requested retry"]⟩]⟩ : JobQueue)
        (⟨0, 3, [], []⟩ : ProcessingReport)
      = (⟨0, 3, [], []⟩,
         ⟨[], [⟨r, 3, 3, ["worker requested retry", "worker requested retry",
            "worker requested retry"]⟩]⟩, 3) :=
    drain_nil countingRetry 3 _ _ rfl
  have hE : enqueue_valid [⟨r, true, [], []⟩] {} {}
      = ({}, (⟨[⟨r, 0, 3, []⟩], []⟩ : JobQueue)) := rfl
  simp only [Orchestrator.run, hE]
  rw [h1, h2, h3, h4]
  simp

/-- C1 counterexample: on one valid record with an always-retry worker and
default max_attempts = 3, `run` ends with retry_count = 3 (not 2) and the
dead-lettered job carries 3 error messages (not 2): `requeue` appends a
message and bumps `retry_count` on the final, dead-lettering retry as
well. -/
theorem always_retry_counterexample :
    (Orchestrator.run countingRetry 0
        [⟨{ case_id := "CASE-4" }, true, [], []⟩]).1.retry_count ≠ 2
      ∧ ∃ j ∈ (Orchestrator.run countingRetry 0
          [⟨{ case_id := "CASE-4" }, true, [], []⟩]).1.failed_jobs,
          j.error_messages.length ≠ 2 := by
  rw [always_retry_run_eq { case_id := "CASE-4" }]
  refine ⟨by decide, ⟨⟨{ case_id := "CASE-4" }, 3, 3, ["worker requested retry",
    "worker requested retry", "worker requested retry"]⟩, by simp, by decide⟩⟩

/-- C1 amended: a job whose worker always returns retryable-failure with
default max_attempts = 3 is dispatched exactly 3 times (hence re-appended
to the queue exactly 2 times after its initial enqueue), ends in
`report.failed_jobs` via the dead-letter list with attempts = 3, its
error_messages list has length max_attempts = 3 (requeue appends one
message per retry event, including the final dead-lettering one), and
report.retry_count ends at 3. -/
theorem always_retry_amended (r : CaseRecord) :
    (Orchestrator.run countingRetry 0 [⟨r, true, [], []⟩]).1.retry_count = 3
      ∧ (Orchestrator.run countingRetry 0 [⟨r, true, [], []⟩]).1.failed_jobs
          = [⟨r, 3, 3, ["worker requested retry", "worker requested retry",
              "worker requested retry"]⟩]
      ∧ (Orchestrator.run countingRetry 0 [⟨r, true, [], []⟩]).2.1.dead_letter
          = [⟨r, 3, 3, ["worker requested retry", "worker requested retry",
              "worker requested retry"]⟩]
      ∧ (Orchestrator.run countingRetry 0 [⟨r, true, [], []⟩]).2.2 = 3
      ∧ (Orchestrator.run countingRetry 0 [⟨r, true, [], []⟩]).1.success_count = 0 := by
  rw [always_retry_run_eq r]
  exact ⟨rfl, rfl, rfl, rfl, rfl⟩

/-- A worker that raises on every job whose record satisfies `p` and
succeeds on the rest, counting all dispatches in its state. -/
def faultOn (p : CaseRecord → Bool) : Worker Nat := fun n j =>
  ((if p j.record then Outcome.fault else Outcome.success), n + 1)

/-- Drain under `faultOn p`: the faulting jobs land in `failed_jobs`
unmodified and in queue order, the rest are counted as successes, each
queued job is dispatched exactly once, and neither the retry path nor the
dead-letter list is ever touched. -/
lemma drain_faultOn (p : CaseRecord → Bool) (n : Nat) (l d : List JobItem)
    (rep : ProcessingReport) :
    (drain (faultOn p) n ⟨l, d⟩ rep).1.failed_jobs
        = rep.failed_jobs ++ l.filter (fun j => p j.record)
      ∧ (drain (faultOn p) n ⟨l, d⟩ rep).1.success_count
          = rep.success_count + (l.filter (fun j => !p j.record)).length
      ∧ (drain (faultOn p) n ⟨l, d⟩ rep).2.2 = n + l.length
      ∧ (drain (faultOn p) n ⟨l, d⟩ rep).2.1.dead_letter = d
      ∧ (drain (faultOn p) n ⟨l, d⟩ rep).1.retry_count = rep.retry_count := by
  induction l generalizing n rep with
  | nil =>
      rw [drain_nil _ _ _ _ rfl]
      simp
  | cons job rest ih =>
      rw [drain_cons (faultOn p) n ⟨job :: rest, d⟩ rep job rest rfl]
      by_cases hp : p job.record
      · simp only [faultOn, hp, if_pos]
        have h := ih (n + 1) { rep with failed_jobs := rep.failed_jobs ++ [job] }
        simp [hp] at h ⊢
        refine ⟨h.1.trans (by simp), h.2.1, by omega, h.2.2.2⟩
      · simp only [faultOn, hp, if_neg, Bool.false_eq_true, not_false_iff]
        have h := ih (n + 1) { rep with success_count := rep.success_count + 1 }
        simp [hp] at h ⊢
        refine ⟨h.1, by omega, by omega, h.2.2.2⟩

/-- C3: when the worker raises on a job (already on its first dispatch),
`run` appends that job directly to `failed_jobs` with attempts = 0 and no
error messages, never touching the requeue/dead-letter path for it; every
enqueued job is dispatched exactly once (so the faulted job is never
dispatched again) and the remaining jobs are still processed: the
non-faulting ones are all counted as successes. -/
theorem fault_first_dispatch (p : CaseRecord → Bool) (results : List ValidationResult) :
    (∀ j ∈ (Orchestrator.run (faultOn p) 0 results).1.failed_jobs,
        j.attempts = 0 ∧ j.error_messages = [] ∧ p j.record = true)
      ∧ (Orchestrator.run (faultOn p) 0 results).2.2
          = (results.filter (fun res => res.is_valid)).length
      ∧ (Orchestrator.run (faultOn p) 0 results).1.retry_count = 0
      ∧ (Orchestrator.run (faultOn p) 0 results).2.1.dead_letter = []
      ∧ (Orchestrator.run (faultOn p) 0 results).1.success_count
          = ((results.filter (fun res => res.is_valid)).filter
              (fun res => !p res.record)).length := by
  have he := enqueue_valid_spec results {} {}
  have hq2 : (enqueue_valid results {} {}).2
      = (⟨(results.filter (fun res => res.is_valid)).map
            (fun res => ({ record := res.record } : JobItem)), []⟩ : JobQueue) := by
    have h1 : (enqueue_valid results {} {}).2.queue
        = (results.filter (fun res => res.is_valid)).map
            (fun res => ({ record := res.record } : JobItem)) := by simpa using he.1
    have h2 : (enqueue_valid results {} {}).2.dead_letter = [] := by simpa using he.2.1
    conv_lhs => rw [show (enqueue_valid results {} {}).2
      = (⟨(enqueue_valid results {} {}).2.queue,
          (enqueue_valid results {} {}).2.dead_letter⟩ : JobQueue) from rfl]
    rw [h1, h2]
  have hr1 : (enqueue_valid results {} {}).1
      = (⟨0, 0, [], results.filter (fun res => !res.is_valid)⟩ : ProcessingReport) := by
    have h1 : (enqueue_valid results {} {}).1.success_count = 0 := by
      simpa using he.2.2.2.1
    have h2 : (enqueue_valid results {} {}).1.retry_count = 0 := by
      simpa using he.2.2.2.2.1
    have h3 : (enqueue_valid results {} {}).1.failed_jobs = [] := by
      simpa using he.2.2.2.2.2
    have h4 : (enqueue_valid results {} {}).1.validation_errors
        = results.filter (fun res => !res.is_valid) := by simpa using he.2.2.1
    conv_lhs => rw [show (enqueue_valid results {} {}).1
      = (⟨(enqueue_valid results {} {}).1.success_count,
          (enqueue_valid results {} {}).1.retry_count,
          (enqueue_valid results {} {}).1.failed_jobs,
          (enqueue_valid results {} {}).1.validation_errors⟩ : ProcessingReport) from rfl]
    rw [h1, h2, h3, h4]
  have hd := drain_faultOn p 0
    ((results.filter (fun res => res.is_valid)).map
      (fun res => ({ record := res.record } : JobItem)))
    [] (⟨0, 0, [], results.filter (fun res => !res.is_valid)⟩ : ProcessingReport)
  simp only [Orchestrator.run, hq2, hr1]
  refine ⟨?_, ?_, ?_, ?_, ?_⟩
  · intro j hj
    simp only [List.mem_append, hd.1, hd.2.2.2.1] at hj
    rcases hj with (hj | hj) | hj
    · simp at hj
    · have hp : p j.record = true := (List.mem_filter.mp hj).2
      have hjm := (List.mem_filter.mp hj).1
      obtain ⟨res, hres, hj2⟩ := List.mem_map.mp hjm
      subst hj2
      exact ⟨rfl, rfl, hp⟩
    · simp at hj
  · rw [hd.2.2.1]
    simp
  · rw [hd.2.2.2.2]
  · rw [hd.2.2.2.1]
  · rw [hd.2.1]
    rw [List.filter_map, List.length_map]
    simp [Function.comp]

/-- A concrete record the faulting worker will fault on. -/
def faultRecord : CaseRecord := { case_id := "CASE-F" }

/-- Predicate selecting `faultRecord` for the faulting worker. -/
def pFault : CaseRecord → Bool := fun r => r.case_id == "CASE-F"

/-- Evaluation of `run` on one valid record whose worker faults on the
first dispatch: one dispatch, no retries, the untouched job in
`failed_jobs`, empty dead-letter list. -/
lemma faultOn_run_eq :
    Orchestrator.run (faultOn pFault) 0 [⟨faultRecord, true, [], []⟩]
      = (⟨0, 0, [⟨faultRecord, 0, 3, []⟩], []⟩, (⟨[], []⟩ : JobQueue), 1) := by
  have hE : enqueue_valid [⟨faultRecord, true, [], []⟩] {} {}
      = ({}, (⟨[⟨faultRecord, 0, 3, []⟩], []⟩ : JobQueue)) := rfl
  have h1 : drain (faultOn pFault) 0
        (⟨[⟨faultRecord, 0, 3, []⟩], []⟩ : JobQueue) ({} : ProcessingReport)
      = (⟨0, 0, [⟨faultRecord, 0, 3, []⟩], []⟩, (⟨[], []⟩ : JobQueue), 1) := by
    rw [drain_cons (faultOn pFault) 0 ⟨[⟨faultRecord, 0, 3, []⟩], []⟩ {}
      ⟨faultRecord, 0, 3, []⟩ [] rfl]
    have hp : pFault faultRecord = true := by decide
    simp only [faultOn, hp, if_pos]
    rw [drain_nil _ _ _ _ rfl]
    simp
  simp only [Orchestrator.run, hE]
  rw [h1]
  simp

/-- Witness for C3 at a concrete one-record batch whose worker faults on
the first dispatch. -/
theorem fault_first_dispatch_witness :
    (⟨faultRecord, 0, 3, []⟩ : JobItem).attempts = 0
      ∧ (⟨faultRecord, 0, 3, []⟩ : JobItem).error_messages = []
      ∧ pFault (⟨faultRecord, 0, 3, []⟩ : JobItem).record = true :=
  (fault_first_dispatch pFault [⟨faultRecord, true, [], []⟩]).1
    ⟨faultRecord, 0, 3, []⟩ (by rw [faultOn_run_eq]; simp)

/-- A worker that requests a retry exactly on jobs carrying record `a`,
succeeds on all others, and records the dispatched records in order. -/
def traceWorker (a : CaseRecord) : Worker (List CaseRecord) := fun tr j =>
  ((if j.record = a then Outcome.retryRequest else Outcome.success), tr ++ [j.record])

/-- C4: with jobs A then B enqueued in that order, A retrying and B
succeeding, the dispatch trace is A, B, A, A — B completes before A is
dispatched a second time, because requeue appends a non-exhausted job at
the queue tail (behind all pending jobs) and dequeue always pops the
head. -/
theorem tail_requeue_fairness (a b : CaseRecord) (hab : a ≠ b) :
    (Orchestrator.run (traceWorker a) []
        [⟨a, true, [], []⟩, ⟨b, true, [], []⟩]).2.2 = [a, b, a, a]
      ∧ (∀ (q : JobQueue) (j : JobItem) (msg : String),
          (j.requeued msg).is_exhausted = false →
            (q.requeue j msg).queue = q.queue ++ [j.requeued msg])
      ∧ (∀ (q : JobQueue) (j : JobItem) (rest : List JobItem),
          q.queue = j :: rest → q.dequeue = (some j, { q with queue := rest })) := by
  have hba : b ≠ a := Ne.symm hab
  refine ⟨?_, ?_, ?_⟩
  · have hE : enqueue_valid [⟨a, true, [], []⟩, ⟨b, true, [], []⟩] {} {}
        = ({}, (⟨[⟨a, 0, 3, []⟩, ⟨b, 0, 3, []⟩], []⟩ : JobQueue)) := rfl
    have h1 : drain (traceWorker a) []
          (⟨[⟨a, 0, 3, []⟩, ⟨b, 0, 3, []⟩], []⟩ : JobQueue) ({} : ProcessingReport)
        = drain (traceWorker a) [a]
            (⟨[⟨b, 0, 3, []⟩, ⟨a, 1, 3, ["worker requested retry"]⟩], []⟩ : JobQueue)
            (⟨0, 1, [], []⟩ : ProcessingReport) := by
      rw [drain_cons (traceWorker a) [] ⟨[⟨a, 0, 3, []⟩, ⟨b, 0, 3, []⟩], []⟩ {}
        ⟨a, 0, 3, []⟩ [⟨b, 0, 3, []⟩] rfl]
      simp [traceWorker, JobQueue.requeue, JobItem.requeued, JobItem.is_exhausted]
    have h2 : drain (traceWorker a) [a]
          (⟨[⟨b, 0, 3, []⟩, ⟨a, 1, 3, ["worker requested retry"]⟩], []⟩ : JobQueue)
          (⟨0, 1, [], []⟩ : ProcessingReport)
        = drain (traceWorker a) [a, b]
            (⟨[⟨a, 1, 3, ["worker requested retry"]⟩], []⟩ : JobQueue)
            (⟨1, 1, [], []⟩ : ProcessingReport) := by
      rw [drain_cons (traceWorker a) [a]
        ⟨[⟨b, 0, 3, []⟩, ⟨a, 1, 3, ["worker requested retry"]⟩], []⟩ ⟨0, 1, [], []⟩
        ⟨b, 0, 3, []⟩ [⟨a, 1, 3, ["worker requested retry"]⟩] rfl]
      simp [traceWorker, hba]
    have h3 : drain (traceWorker a) [a, b]
          (⟨[⟨a, 1, 3, ["worker requested retry"]⟩], []⟩ : JobQueue)
          (⟨1, 1, [], []⟩ : ProcessingReport)
        = drain (traceWorker a) [a, b, a]
            (⟨[⟨a, 2, 3, ["worker requested retry", "worker requested retry"]⟩], []⟩ : JobQueue)
            (⟨1, 2, [], []⟩ : ProcessingReport) := by
      rw [drain_cons (traceWorker a) [a, b]
        ⟨[⟨a, 1, 3, ["worker requested retry"]⟩], []⟩ ⟨1, 1, [], []⟩
        ⟨a, 1, 3, ["worker requested retry"]⟩ [] rfl]
      simp [traceWorker, JobQueue.requeue, JobItem.requeued, JobItem.is_exhausted]
    have h4 : drain (traceWorker a) [a, b, a]
          (⟨[⟨a, 2, 3, ["worker requested retry", "worker requested retry"]⟩], []⟩ : JobQueue)
          (⟨1, 2, [], []⟩ : ProcessingReport)
        = drain (traceWorker a) [a, b, a, a]
            (⟨[], [⟨a, 3, 3, ["worker requested retry", "worker requested retry",
                "worker requested retry"]⟩]⟩ : JobQueue)
            (⟨1, 3, [], []⟩ : ProcessingReport) := by
      rw [drain_cons (traceWorker a) [a, b, a]
        ⟨[⟨a, 2, 3, ["worker requested retry", "worker requested retry"]⟩], []⟩
        ⟨1, 2, [], []⟩
        ⟨a, 2, 3, ["worker requested retry", "worker requested retry"]⟩ [] rfl]
      simp [traceWorker, JobQueue.requeue, JobItem.requeued, JobItem.is_exhausted]
    have h5 : drain (traceWorker a) [a, b, a, a]
          (⟨[], [⟨a, 3, 3, ["worker requested retry", "worker requested retry",
              "worker requested retry"]⟩]⟩ : JobQueue)
          (⟨1, 3, [], []⟩ : ProcessingReport)
        = (⟨1, 3, [], []⟩,
           (⟨[], [⟨a, 3, 3, ["worker requested retry", "worker requested retry",
              "worker requested retry"]⟩]⟩ : JobQueue), [a, b, a, a]) :=
      drain_nil _ _ _ _ rfl
    simp only [Orchestrator.run, hE]
    rw [h1, h2, h3, h4, h5]
  · intro q j msg h
    simp [JobQueue.requeue, h]
  · intro q j rest hq
    simp [JobQueue.dequeue, hq]

/-- Concrete record A for the fairness witness. -/
def recA : CaseRecord := { case_id := "A" }

/-- Concrete record B for the fairness witness. -/
def recB : CaseRecord := { case_id := "B" }

/-- Witness for C4 at concrete distinct records A and B. -/
theorem tail_requeue_fairness_witness :
    (Orchestrator.run (traceWorker recA) []
        [⟨recA, true, [], []⟩, ⟨recB, true, [], []⟩]).2.2
      = [recA, recB, recA, recA] :=
  (tail_requeue_fairness recA recB (by decide)).1
